import Mathlib

/-!
Shallow embedding of the lcextensionbackend server (`src/frontend/src/App.jsx`,
backend portion) and proofs about its behaviour.

The server exposes `POST /api/data`, which validates the request body,
immediately acknowledges, and then runs a fire-and-forget background pipeline:
two concurrent OpenAI chat-completion calls (`generateProblemDescription`,
`generateCodeResponse`) joined by `Promise.all`, followed by a Mochi
card-creation call (`createMochiCard`).

Network interactions are modelled by passing each outbound call's outcome as a
parameter and recording the calls the code makes as an explicit trace, so that
ordering and "no call is made" properties are statable.
-/

set_option autoImplicit false

namespace LCExt

/-- JSON values, as produced by JavaScript `JSON.parse`.  Numeric literals keep
their source lexeme (no theorem below depends on numeric semantics). -/
inductive Json where
  | null : Json
  | bool : Bool → Json
  | num : String → Json
  | str : String → Json
  | arr : List Json → Json
  | obj : List (String × Json) → Json
deriving Repr

namespace JsonParse

/-- JSON whitespace characters. -/
def isWs (c : Char) : Bool :=
  c = ' ' || c = '\t' || c = '\n' || c = '\r'

/-- Drop leading JSON whitespace. -/
def skipWs : List Char → List Char
  | [] => []
  | c :: cs => if isWs c then skipWs cs else c :: cs

/-- Value of a hexadecimal digit. -/
def hexVal? (c : Char) : Option Nat :=
  if '0' ≤ c ∧ c ≤ '9' then some (c.toNat - '0'.toNat)
  else if 'a' ≤ c ∧ c ≤ 'f' then some (c.toNat - 'a'.toNat + 10)
  else if 'A' ≤ c ∧ c ≤ 'F' then some (c.toNat - 'A'.toNat + 10)
  else none

/-- Parse the body of a JSON string literal (the opening quote already
consumed), handling the escape sequences `JSON.parse` accepts and rejecting
raw control characters.  (Surrogate pairs from `\uXXXX` escapes are not
recombined; no theorem depends on them.) -/
def parseStringBody : Nat → List Char → Option (String × List Char)
  | 0, _ => none
  | _, [] => none
  | fuel + 1, c :: cs =>
    if c = '"' then some ("", cs)
    else if c = '\\' then
      match cs with
      | [] => none
      | e :: cs2 =>
        let esc? : Option (Char × List Char) :=
          if e = '"' then some ('"', cs2)
          else if e = '\\' then some ('\\', cs2)
          else if e = '/' then some ('/', cs2)
          else if e = 'b' then some (Char.ofNat 8, cs2)
          else if e = 'f' then some (Char.ofNat 12, cs2)
          else if e = 'n' then some ('\n', cs2)
          else if e = 'r' then some ('\r', cs2)
          else if e = 't' then some ('\t', cs2)
          else if e = 'u' then
            match cs2 with
            | a :: b :: c3 :: d :: cs3 =>
              match hexVal? a, hexVal? b, hexVal? c3, hexVal? d with
              | some ha, some hb, some hc, some hd =>
                some (Char.ofNat (((ha * 16 + hb) * 16 + hc) * 16 + hd), cs3)
              | _, _, _, _ => none
            | _ => none
          else none
        match esc? with
        | none => none
        | some (ch, rest) =>
          match parseStringBody fuel rest with
          | some (s, rest2) => some (⟨ch :: s.data⟩, rest2)
          | none => none
    else if c.toNat < 32 then none
    else
      match parseStringBody fuel cs with
      | some (s, rest) => some (⟨c :: s.data⟩, rest)
      | none => none

/-- Take a maximal run of decimal digits. -/
def digitSpan : List Char → List Char × List Char
  | [] => ([], [])
  | c :: cs =>
    if c.isDigit then
      let (d, r) := digitSpan cs
      (c :: d, r)
    else ([], c :: cs)

/-- Optional fraction part `.[0-9]+`; returns the consumed lexeme. -/
def parseFrac : List Char → Option (List Char × List Char)
  | '.' :: cs =>
    let (ds, r) := digitSpan cs
    if ds.isEmpty then none else some ('.' :: ds, r)
  | cs => some ([], cs)

/-- Optional exponent part `[eE][+-]?[0-9]+`; returns the consumed lexeme. -/
def parseExp : List Char → Option (List Char × List Char)
  | [] => some ([], [])
  | c :: cs =>
    if c = 'e' ∨ c = 'E' then
      let (sgn, cs2) :=
        match cs with
        | s :: cs3 => if s = '+' ∨ s = '-' then ([s], cs3) else (([] : List Char), s :: cs3)
        | [] => (([] : List Char), ([] : List Char))
      let (ds, r) := digitSpan cs2
      if ds.isEmpty then none else some (c :: (sgn ++ ds), r)
    else some ([], c :: cs)

/-- Parse a JSON number lexeme `-?(0|[1-9][0-9]*)(\.[0-9]+)?([eE][+-]?[0-9]+)?`. -/
def parseNumber (input : List Char) : Option (String × List Char) :=
  let (neg, rest1) :=
    match input with
    | '-' :: cs => ((['-'] : List Char), cs)
    | cs => (([] : List Char), cs)
  match rest1 with
  | [] => none
  | c :: cs =>
    let intPart? : Option (List Char × List Char) :=
      if c = '0' then some (neg ++ ['0'], cs)
      else if c.isDigit then
        let (ds, r) := digitSpan cs
        some (neg ++ c :: ds, r)
      else none
    match intPart? with
    | none => none
    | some (ip, r1) =>
      match parseFrac r1 with
      | none => none
      | some (fp, r2) =>
        match parseExp r2 with
        | none => none
        | some (ep, r3) => some (⟨ip ++ fp ++ ep⟩, r3)

mutual

/-- Parse one JSON value (fuel-bounded recursion; `parseJson` supplies ample
fuel, so exhaustion never occurs on the inputs of the theorems below). -/
def parseValue : Nat → List Char → Option (Json × List Char)
  | 0, _ => none
  | fuel + 1, input =>
    match skipWs input with
    | [] => none
    | c :: cs =>
      if c = Char.ofNat 123 then parseObjFirst fuel cs
      else if c = '[' then parseArrFirst fuel cs
      else if c = '"' then
        match parseStringBody (fuel + 1) cs with
        | some (s, rest) => some (.str s, rest)
        | none => none
      else if c = 't' then
        match cs with
        | 'r' :: 'u' :: 'e' :: rest => some (.bool true, rest)
        | _ => none
      else if c = 'f' then
        match cs with
        | 'a' :: 'l' :: 's' :: 'e' :: rest => some (.bool false, rest)
        | _ => none
      else if c = 'n' then
        match cs with
        | 'u' :: 'l' :: 'l' :: rest => some (.null, rest)
        | _ => none
      else
        match parseNumber (c :: cs) with
        | some (s, rest) => some (.num s, rest)
        | none => none

/-- After `{`: either `}` or the first member. -/
def parseObjFirst : Nat → List Char → Option (Json × List Char)
  | 0, _ => none
  | fuel + 1, input =>
    match skipWs input with
    | [] => none
    | c :: cs =>
      if c = Char.ofNat 125 then some (.obj [], cs)
      else parseMembers fuel (c :: cs) []

/-- Parse `"key" : value ( , "key" : value )*` then `}` (accumulator in
source order). -/
def parseMembers : Nat → List Char → List (String × Json) → Option (Json × List Char)
  | 0, _, _ => none
  | fuel + 1, input, acc =>
    match skipWs input with
    | '"' :: cs =>
      match parseStringBody (fuel + 1) cs with
      | none => none
      | some (k, rest) =>
        match skipWs rest with
        | ':' :: rest2 =>
          match parseValue fuel rest2 with
          | none => none
          | some (v, rest3) =>
            match skipWs rest3 with
            | ',' :: rest4 => parseMembers fuel rest4 (acc ++ [(k, v)])
            | c :: rest4 =>
              if c = Char.ofNat 125 then some (.obj (acc ++ [(k, v)]), rest4)
              else none
            | [] => none
        | _ => none
    | _ => none

/-- After `[`: either `]` or the first element. -/
def parseArrFirst : Nat → List Char → Option (Json × List Char)
  | 0, _ => none
  | fuel + 1, input =>
    match skipWs input with
    | [] => none
    | c :: cs =>
      if c = ']' then some (.arr [], cs)
      else parseElements fuel (c :: cs) []

/-- Parse `value ( , value )*` then `]`. -/
def parseElements : Nat → List Char → List Json → Option (Json × List Char)
  | 0, _, _ => none
  | fuel + 1, input, acc =>
    match parseValue fuel input with
    | none => none
    | some (v, rest) =>
      match skipWs rest with
      | ',' :: rest2 => parseElements fuel rest2 (acc ++ [v])
      | ']' :: rest2 => some (.arr (acc ++ [v]), rest2)
      | _ => none

end

end JsonParse

/-- Model of JavaScript `JSON.parse`: parse one value, allow trailing
whitespace, reject anything else left over.  `none` models a thrown
`SyntaxError`. -/
def parseJson (s : String) : Option Json :=
  match JsonParse.parseValue (4 * s.length + 16) s.data with
  | none => none
  | some (v, rest) =>
    match JsonParse.skipWs rest with
    | [] => some v
    | _ => none

/-- JS truthiness of a possibly-absent string value: `undefined` (here `none`)
and the empty string are falsy, every other string is truthy. -/
def truthy : Option String → Bool
  | none => false
  | some s => !s.isEmpty

mutual

/-- JS `String(x)` coercion of a JSON-derived value, as invoked by the `+`
concatenations in `createMochiCard`. -/
def jsDisp : Json → String
  | .null => "null"
  | .bool true => "true"
  | .bool false => "false"
  | .num s => s
  | .str s => s
  | .arr xs => jsDispList xs
  | .obj _ => "[object Object]"

/-- `Array.prototype.toString`: elements joined by `","`, a `null` element
rendering as the empty string. -/
def jsDispList : List Json → String
  | [] => ""
  | [Json.null] => ""
  | [x] => jsDisp x
  | Json.null :: xs => "," ++ jsDispList xs
  | x :: xs => jsDisp x ++ "," ++ jsDispList xs

end

/-- JS string coercion of a possibly-`undefined` value (`String(undefined)` is
`"undefined"`). -/
def jsToString : Option Json → String
  | none => "undefined"
  | some j => jsDisp j

/-- A chat-completion choice's `message` object (`content` is a string or
`null`, folded into `Option`). -/
structure ChatMessage where
  content : Option String
deriving Repr, DecidableEq

/-- One element of the completion response's `choices` array. -/
structure Choice where
  message : Option ChatMessage
deriving Repr, DecidableEq

/-- The completion API's response, as far as the code inspects it. -/
structure ChatResponse where
  choices : List Choice
deriving Repr, DecidableEq

/-- The optional-chaining access `response.choices[0]?.message?.content`
(App.jsx:148, App.jsx:166). -/
def responseContent (response : ChatResponse) : Option String :=
  match response.choices.head? with
  | none => none
  | some c =>
    match c.message with
    | none => none
    | some m => m.content

/-- The two errors `generateCodeResponse` can throw locally: the
`"No content returned"` error and a `SyntaxError` from `JSON.parse`. -/
inductive GenError where
  | noContent
  | parseError
deriving Repr, DecidableEq

/-- `generateCodeResponse` (App.jsx:131-152): one completion request carrying
the structured-output schema; the fulfilled response is the parameter.  Throws
`"No content returned"` when `!content` (content absent, `null`, or the empty
string), otherwise returns `JSON.parse(content)`.  The parsed value's fields
are not validated locally — the two-field schema is only part of the request. -/
def generateCodeResponse (response : ChatResponse) : Except GenError Json :=
  match responseContent response with
  | none => .error .noContent
  | some content =>
    if content.isEmpty then .error .noContent
    else
      match parseJson content with
      | some j => .ok j
      | none => .error .parseError

/-- `generateProblemDescription` (App.jsx:154-167): one completion request
(no schema); returns `response.choices[0]?.message?.content` as is — possibly
`undefined`/`null` (`none`), never throwing locally. -/
def generateProblemDescription (response : ChatResponse) : Option String :=
  responseContent response

/-- JS property access `obj.key` on a parsed JSON value: a missing key or a
non-object, non-`null` base yields `undefined` (`none`); access on `null`
throws a `TypeError`.  (`JSON.parse` keeps the last duplicate key, hence the
`reverse`.) -/
def jsGet (j : Json) (k : String) : Except String (Option Json) :=
  match j with
  | .null => .error "TypeError"
  | .obj fields => .ok ((fields.reverse.find? (fun p => p.1 == k)).map (fun p => p.2))
  | _ => .ok none

/-- The JSON body `createMochiCard` posts to the Mochi API: the `content`,
`"deck-id"` and `"archived?"` fields (App.jsx:205-209). -/
structure MochiRequest where
  content : String
  deckId : String
  archived : Bool
deriving Repr, DecidableEq

/-- Outcome of the `fetch` to the Mochi API, as far as the code inspects it. -/
structure FetchResponse where
  ok : Bool
  status : Nat
  body : String
deriving Repr, DecidableEq

/-- The outbound network calls the server can make, with their distinguishing
payload. -/
inductive Call where
  | llmReformat (description : String)
  | llmExtract (message : String)
  | mochiPost (req : MochiRequest)
deriving Repr, DecidableEq

/-- The `cardContent` template (App.jsx:186-194).  The arguments are the raw
JS values handed to `createMochiCard`; `+` coerces them to strings
(`undefined` renders as `"undefined"`). -/
def cardContent (problemDescription solutionExplanation codeSnippet : Option Json) : String :=
  "What is the key techinque to solve this problem?\n" ++
    jsToString problemDescription ++ "\n---\n" ++
    jsToString solutionExplanation ++ "\n" ++
    "```python\n" ++ jsToString codeSnippet ++ "\n```"

/-- `DECK_ID` (App.jsx:182). -/
def DECK_ID : String := "QKtBzxLx"

/-- The request body `createMochiCard` sends when it reaches the network. -/
def mochiRequest (problemDescription solutionExplanation codeSnippet : Option Json) : MochiRequest :=
  { content := cardContent problemDescription solutionExplanation codeSnippet
    deckId := DECK_ID
    archived := false }

/-- The error `createMochiCard` throws on a non-ok response:
`Mochi API Error ${status}: ${errorText}`. -/
inductive MochiError where
  | apiError (status : Nat) (body : String)
deriving Repr, DecidableEq

/-- `createMochiCard` (App.jsx:172-218): returns `null` (`Except.ok none`)
without touching the network when `!MOCHI_API_KEY`; otherwise posts the card
and either throws on a non-ok response or returns the response body.  The
result is paired with the list of network calls performed. -/
def createMochiCard (mochiApiKey : Option String)
    (problemDescription solutionExplanation codeSnippet : Option Json)
    (fetchResponse : FetchResponse) :
    Except MochiError (Option String) × List Call :=
  if !truthy mochiApiKey then
    (.ok none, [])
  else
    let req := mochiRequest problemDescription solutionExplanation codeSnippet
    if fetchResponse.ok then
      (.ok (some fetchResponse.body), [.mochiPost req])
    else
      (.error (.apiError fetchResponse.status fetchResponse.body), [.mochiPost req])

/-- The failures the background task can catch and log. -/
inductive PipelineError where
  | upstream (message : String)
  | gen (e : GenError)
  | typeError (message : String)
  | mochi (e : MochiError)
deriving Repr, DecidableEq

instance {ε α : Type} [DecidableEq ε] [DecidableEq α] : DecidableEq (Except ε α) :=
  fun a b =>
    match a, b with
    | .ok x, .ok y =>
      if h : x = y then isTrue (by rw [h]) else isFalse (fun hc => h (by injection hc))
    | .error x, .error y =>
      if h : x = y then isTrue (by rw [h]) else isFalse (fun hc => h (by injection hc))
    | .ok _, .error _ => isFalse (fun hc => by injection hc)
    | .error _, .ok _ => isFalse (fun hc => by injection hc)

/-- Behaviour of everything outside the process for one background run: the
settlement of each completion call, the Mochi credential, and the Mochi
`fetch` outcome. -/
structure Env where
  reformatOutcome : Except String ChatResponse
  extractOutcome : Except String ChatResponse
  mochiApiKey : Option String
  mochiResponse : FetchResponse
deriving Repr, DecidableEq

/-- The reformatting leg of the `Promise.all`: a rejected completion call
propagates; on fulfilment `generateProblemDescription` yields the content. -/
def reformatLeg (outcome : Except String ChatResponse) : Except PipelineError (Option String) :=
  match outcome with
  | .error e => .error (.upstream e)
  | .ok r => .ok (generateProblemDescription r)

/-- The extraction leg of the `Promise.all`: a rejected completion call
propagates; on fulfilment `generateCodeResponse` runs. -/
def extractLeg (outcome : Except String ChatResponse) : Except PipelineError Json :=
  match outcome with
  | .error e => .error (.upstream e)
  | .ok r =>
    match generateCodeResponse r with
    | .error e => .error (.gen e)
    | .ok j => .ok j

/-- `Promise.all` over two already-started promises: fulfils with the pair
when both fulfil, rejects as soon as either rejects (when both reject, the
recorded reason is the first's; no claim depends on which). -/
def promiseAll2 {α β : Type} :
    Except PipelineError α → Except PipelineError β → Except PipelineError (α × β)
  | .ok a, .ok b => .ok (a, b)
  | .error e, _ => .error e
  | .ok _, .error e => .error e

/-- What the background task logs at the end: success (and whether a card id
was logged, i.e. `mochiCard` was non-null), or the caught error. -/
inductive Outcome where
  | success (cardCreated : Bool)
  | failure (e : PipelineError)
deriving Repr, DecidableEq

/-- The fire-and-forget background task (App.jsx:234-268): both completion
calls are started together by `Promise.all` (recorded first, in source order)
and joined; on joint success the two schema fields are read off the parsed
object and `createMochiCard` is awaited; any thrown error is caught and only
logged.  Returns the logged outcome and the outbound calls made. -/
def backgroundTask (message description : String) (env : Env) : Outcome × List Call :=
  let started : List Call := [.llmReformat description, .llmExtract message]
  match promiseAll2 (reformatLeg env.reformatOutcome) (extractLeg env.extractOutcome) with
  | .error e => (.failure e, started)
  | .ok (problemDescription, solutionExplanationAndCode) =>
    match jsGet solutionExplanationAndCode "solutionExplanation" with
    | .error msg => (.failure (.typeError msg), started)
    | .ok solutionExplanation =>
      match jsGet solutionExplanationAndCode "code" with
      | .error msg => (.failure (.typeError msg), started)
      | .ok code =>
        match createMochiCard env.mochiApiKey (problemDescription.map Json.str)
            solutionExplanation code env.mochiResponse with
        | (.error e, calls) => (.failure (.mochi e), started ++ calls)
        | (.ok mochiCard, calls) => (.success mochiCard.isSome, started ++ calls)

/-- The request body of `POST /api/data`, as destructured by the handler
(`none` models an absent field). -/
structure RequestBody where
  message : Option String
  description : Option String
deriving Repr, DecidableEq

/-- The JSON bodies the handler can send. -/
inductive ResBody where
  | errorBody (error : String)
  | ackBody (status message : String)
deriving Repr, DecidableEq

/-- An HTTP response: status code plus JSON body. -/
structure HttpResponse where
  statusCode : Nat
  body : ResBody
deriving Repr, DecidableEq

/-- `res.status(400).json({ error: "Message is required" })` (App.jsx:224). -/
def validationErrorResponse : HttpResponse :=
  ⟨400, .errorBody "Message is required"⟩

/-- `res.json({ status: "submitted", message: "Now processing" })`
(App.jsx:228-231), sent with the default 200 status. -/
def ackResponse : HttpResponse :=
  ⟨200, .ackBody "submitted" "Now processing"⟩

/-- Observable events of one request, in order. -/
inductive Event where
  | respond (r : HttpResponse)
  | startBackground
  | outbound (c : Call)
deriving Repr, DecidableEq

/-- The `POST /api/data` handler (App.jsx:220-278) as its ordered event trace:
destructure the body; when `message` or `description` is falsy (absent or the
empty string — no trimming happens) respond 400 and stop; otherwise respond
200 immediately and only afterwards start the background task, whose outbound
calls follow.  The surrounding try/catch's 500 response is not modelled: no
step it guards ahead of the acknowledgment can throw here. -/
def postApiData (body : RequestBody) (env : Env) : List Event :=
  match body.message, body.description with
  | some m, some d =>
    if m.isEmpty || d.isEmpty then [.respond validationErrorResponse]
    else
      .respond ackResponse :: .startBackground ::
        ((backgroundTask m d env).snd.map .outbound)
  | _, _ => [.respond validationErrorResponse]

/-! Sample external behaviours used by concrete instances. -/

/-- A fulfilled completion response whose single choice carries content `s`. -/
def contentResponse (s : String) : ChatResponse := ⟨[⟨some ⟨some s⟩⟩]⟩

/-- A fulfilled completion response with an empty `choices` array, so that the
optional chaining yields `undefined`. -/
def emptyResponse : ChatResponse := ⟨[]⟩

/-- Content of a structured-extraction reply carrying both schema fields. -/
def goodExtractionContent : String :=
  "\x7b \"solutionExplanation\": \"use a hash map\", \"code\": \"def twoSum(): pass\" \x7d"

/-- The value `JSON.parse` returns for `goodExtractionContent`. -/
def goodExtractionJson : Json :=
  Json.obj
    [("solutionExplanation", Json.str "use a hash map"),
     ("code", Json.str "def twoSum(): pass")]

/-- An environment where both completion calls fulfil, the extraction content
is the empty JSON object, and the Mochi credential is absent. -/
def minimalEnv : Env :=
  { reformatOutcome := Except.ok emptyResponse
    extractOutcome := Except.ok (contentResponse "\x7b\x7d")
    mochiApiKey := none
    mochiResponse := ⟨true, 200, ""⟩ }

/-! Proofs. -/

/-- String concatenation is associative (helper). -/
theorem strAppend_assoc (a b c : String) : a ++ b ++ c = a ++ (b ++ c) := by
  obtain ⟨l1⟩ := a
  obtain ⟨l2⟩ := b
  obtain ⟨l3⟩ := c
  show String.mk (l1 ++ l2 ++ l3) = String.mk (l1 ++ (l2 ++ l3))
  rw [List.append_assoc]

/-- C4: when the Mochi credential is absent, `createMochiCard` returns `null`
and performs no network call, whatever the three content inputs and whatever
the (never consulted) fetch behaviour — silent degradation, not a failure. -/
theorem C4_absent_credential_skips
    (problemDescription solutionExplanation codeSnippet : Option Json)
    (fetchResponse : FetchResponse) :
    createMochiCard none problemDescription solutionExplanation codeSnippet fetchResponse =
      (Except.ok none, []) := rfl

/-- C5: the card document is a deterministic, exact concatenation template of
the three string inputs: the fixed lead-in question line, the problem, the
literal separator, the explanation, a newline, and a literally-fenced python
code block. -/
theorem C5_cardContent_template (problem explanation code : String) :
    cardContent (some (Json.str problem)) (some (Json.str explanation)) (some (Json.str code)) =
      "What is the key techinque to solve this problem?\n" ++ problem ++ "\n---\n" ++
        explanation ++ "\n" ++ "```python\n" ++ code ++ "\n```" := by
  simp [cardContent, jsToString, jsDisp]

/-- C6: a request in which `message` or `description` is absent gets the 400
response with error `"Message is required"`, and the pipeline is never invoked
— the trace holds nothing but that validation response. -/
theorem C6_missing_field_rejected (body : RequestBody) (env : Env)
    (h : body.message = none ∨ body.description = none) :
    postApiData body env = [Event.respond ⟨400, ResBody.errorBody "Message is required"⟩] := by
  obtain ⟨m, d⟩ := body
  rcases h with h | h <;> subst h
  · rfl
  · cases m <;> rfl

/-- Witness for C6 at a concrete request with `message` absent. -/
theorem C6_missing_field_rejected_witness :
    postApiData ⟨none, some "Given an array"⟩ minimalEnv =
      [Event.respond ⟨400, ResBody.errorBody "Message is required"⟩] :=
  C6_missing_field_rejected ⟨none, some "Given an array"⟩ minimalEnv (Or.inl rfl)

/-- C7: every valid submission (both fields present and non-empty) is answered
by the immediate acknowledgment — status 200, body `submitted` / `Now
processing` — as the very first event of the trace, for every behaviour of the
upstream calls: the response does not depend on `env`. -/
theorem C7_ack_immediate (m d : String) (env : Env)
    (hm : m.isEmpty = false) (hd : d.isEmpty = false) :
    (postApiData ⟨some m, some d⟩ env).head? =
      some (Event.respond ⟨200, ResBody.ackBody "submitted" "Now processing"⟩) := by
  simp [postApiData, hm, hd, ackResponse]

/-- Witness for C7 at the spec's concrete scenario. -/
theorem C7_ack_immediate_witness :
    (postApiData ⟨some "two sum solution", some "Given an array"⟩ minimalEnv).head? =
      some (Event.respond ⟨200, ResBody.ackBody "submitted" "Now processing"⟩) :=
  C7_ack_immediate "two sum solution" "Given an array" minimalEnv rfl rfl

/-- C1 (counterexample): the submission with a whitespace-only `message` and a
non-empty `description` is not rejected — the endpoint acknowledges it (the
trace is not the validation-error response) and the pipeline does run, making
an outbound completion call. -/
theorem C1_whitespace_not_rejected :
    postApiData ⟨some " ", some "x"⟩ minimalEnv ≠
        [Event.respond ⟨400, ResBody.errorBody "Message is required"⟩] ∧
      Event.outbound (Call.llmReformat "x") ∈ postApiData ⟨some " ", some "x"⟩ minimalEnv := by
  constructor
  · decide
  · decide

/-- C1 (amended): for every submission whose `message` or `description` is
absent or the empty string — validation applies no trimming, so whitespace-only
fields count as present — the endpoint returns the validation-error response
and makes zero outbound calls. -/
theorem C1_falsy_field_rejected (body : RequestBody) (env : Env)
    (h : truthy body.message = false ∨ truthy body.description = false) :
    postApiData body env = [Event.respond ⟨400, ResBody.errorBody "Message is required"⟩] := by
  obtain ⟨m, d⟩ := body
  cases m with
  | none => rfl
  | some m =>
    cases d with
    | none => rfl
    | some d =>
      have hmd : (m.isEmpty || d.isEmpty) = true := by
        rcases h with h | h <;> simp [truthy] at h <;> simp [h]
      simp [postApiData, hmd, validationErrorResponse]

/-- Witness for the amended C1 at a present-but-empty `message`. -/
theorem C1_falsy_field_rejected_witness :
    postApiData ⟨some "", some "x"⟩ minimalEnv =
      [Event.respond ⟨400, ResBody.errorBody "Message is required"⟩] :=
  C1_falsy_field_rejected ⟨some "", some "x"⟩ minimalEnv (Or.inl rfl)

/-- C2 (counterexample): on content consisting of the empty JSON object —
valid JSON in which both required fields are absent — `generateCodeResponse`
succeeds with the empty object instead of failing. -/
theorem C2_missing_fields_accepted :
    generateCodeResponse (contentResponse "\x7b\x7d") = Except.ok (Json.obj []) ∧
      jsGet (Json.obj []) "solutionExplanation" = Except.ok none ∧
      jsGet (Json.obj []) "code" = Except.ok none :=
  ⟨rfl, rfl, rfl⟩

/-- C2 (amended): `generateCodeResponse` throws the no-content error when the
reply carries no content or empty content, throws a parse error when the
content is not valid JSON, and otherwise returns the parsed value unchanged:
the presence of the two required string fields is not validated locally — it
is demanded only by the schema sent with the request. -/
theorem C2_parse_only (r : ChatResponse) :
    (responseContent r = none → generateCodeResponse r = Except.error GenError.noContent) ∧
      (responseContent r = some "" → generateCodeResponse r = Except.error GenError.noContent) ∧
      (∀ s, responseContent r = some s → s.isEmpty = false → parseJson s = none →
        generateCodeResponse r = Except.error GenError.parseError) ∧
      (∀ s j, responseContent r = some s → s.isEmpty = false → parseJson s = some j →
        generateCodeResponse r = Except.ok j) := by
  refine ⟨?_, ?_, ?_, ?_⟩
  · intro h
    simp [generateCodeResponse, h]
  · intro h
    have hemp : ("" : String).isEmpty = true := rfl
    simp [generateCodeResponse, h, hemp]
  · intro s hs hne hp
    simp [generateCodeResponse, hs, hne, hp]
  · intro s j hs hne hp
    simp [generateCodeResponse, hs, hne, hp]

/-- Witness for the amended C2: content that is not valid JSON yields the
parse error. -/
theorem C2_parse_only_witness :
    generateCodeResponse (contentResponse "not json") = Except.error GenError.parseError :=
  (C2_parse_only (contentResponse "not json")).2.2.1 "not json" rfl rfl rfl

/-- C3: whenever the structured-extraction leg rejects (upstream rejection,
missing content, or parse error), the background task fails with only the two
completion calls on the wire: the join is all-or-nothing, a successful
reformatting result is discarded, and the card-creation call is never made. -/
theorem C3_extraction_failure_all_or_nothing (m d : String) (env : Env) (e : PipelineError)
    (h : extractLeg env.extractOutcome = Except.error e) :
    (∀ req, Call.mochiPost req ∉ (backgroundTask m d env).snd) ∧
      ∃ e2, backgroundTask m d env =
        (Outcome.failure e2, [Call.llmReformat d, Call.llmExtract m]) := by
  have hp : ∃ e2, promiseAll2 (reformatLeg env.reformatOutcome) (extractLeg env.extractOutcome) =
      Except.error e2 := by
    rw [h]
    cases reformatLeg env.reformatOutcome with
    | error e1 => exact ⟨e1, rfl⟩
    | ok v => exact ⟨e, rfl⟩
  obtain ⟨e2, hp⟩ := hp
  have hbt : backgroundTask m d env =
      (Outcome.failure e2, [Call.llmReformat d, Call.llmExtract m]) := by
    unfold backgroundTask
    rw [hp]
  refine ⟨fun req => ?_, ⟨e2, hbt⟩⟩
  rw [hbt]
  simp

/-- An environment where reformatting succeeds but extraction has no content,
with the Mochi credential present. -/
def extractFailEnv : Env :=
  { reformatOutcome := Except.ok (contentResponse "**Two Sum**")
    extractOutcome := Except.ok emptyResponse
    mochiApiKey := some "mochi-key"
    mochiResponse := ⟨true, 200, "ok"⟩ }

/-- Witness for C3: with reformatting succeeding and extraction failing for
lack of content, no card-creation call appears in the trace. -/
theorem C3_extraction_failure_all_or_nothing_witness :
    Call.mochiPost (mochiRequest none none none) ∉
      (backgroundTask "sol" "desc" extractFailEnv).snd :=
  (C3_extraction_failure_all_or_nothing "sol" "desc" extractFailEnv
    (PipelineError.gen GenError.noContent) rfl).1 (mochiRequest none none none)

/-- C8: when the reformatting call fulfils with no content,
`generateProblemDescription` returns `undefined` and the pipeline does not
block on it — given a successful extraction whose two fields read off as `e`
and `c` and a present Mochi credential, the card-creation call is still made,
its payload composed with the undefined problem text. -/
theorem C8_empty_problem_tolerated (m d : String) (env : Env) (r : ChatResponse) (j : Json)
    (e c : Option Json) (key : String)
    (h1 : env.reformatOutcome = Except.ok r)
    (h2 : responseContent r = none)
    (h3 : extractLeg env.extractOutcome = Except.ok j)
    (h4 : jsGet j "solutionExplanation" = Except.ok e)
    (h5 : jsGet j "code" = Except.ok c)
    (h6 : env.mochiApiKey = some key)
    (h7 : key.isEmpty = false) :
    generateProblemDescription r = none ∧
      Call.mochiPost (mochiRequest none e c) ∈ (backgroundTask m d env).snd := by
  have hgen : generateProblemDescription r = none := h2
  refine ⟨hgen, ?_⟩
  have hre : reformatLeg env.reformatOutcome = Except.ok none := by
    rw [h1]
    simp [reformatLeg, hgen]
  have hall : promiseAll2 (reformatLeg env.reformatOutcome) (extractLeg env.extractOutcome) =
      Except.ok ((none : Option String), j) := by
    rw [hre, h3]
    rfl
  unfold backgroundTask
  rw [hall]
  simp only [h4, h5, h6, Option.map_none']
  cases hok : env.mochiResponse.ok <;>
    simp [createMochiCard, truthy, h7, hok]

/-- An environment where the reformatting reply has no content, extraction
succeeds with both schema fields, and the Mochi credential is present. -/
def emptyProblemEnv : Env :=
  { reformatOutcome := Except.ok emptyResponse
    extractOutcome := Except.ok (contentResponse goodExtractionContent)
    mochiApiKey := some "mochi-key"
    mochiResponse := ⟨true, 200, "created"⟩ }

/-- Witness for C8: the card-creation call happens, with the undefined problem
text in the composed payload. -/
theorem C8_empty_problem_tolerated_witness :
    generateProblemDescription emptyResponse = none ∧
      Call.mochiPost (mochiRequest none (some (Json.str "use a hash map"))
          (some (Json.str "def twoSum(): pass"))) ∈
        (backgroundTask "sol" "desc" emptyProblemEnv).snd :=
  C8_empty_problem_tolerated "sol" "desc" emptyProblemEnv emptyResponse goodExtractionJson
    (some (Json.str "use a hash map")) (some (Json.str "def twoSum(): pass")) "mochi-key"
    rfl rfl rfl rfl rfl rfl rfl

/-- C9: whenever `createMochiCard` reaches the network (credential present),
the posted body is invariant in everything but the three content inputs: the
deck identifier is the constant `QKtBzxLx`, the archived flag is `false`, the
content starts with the fixed question line, and the code sits in a python
fence at the end of the document regardless of its actual language. -/
theorem C9_request_invariants (key : String) (p e c : Option Json) (resp : FetchResponse)
    (h : key.isEmpty = false) :
    (createMochiCard (some key) p e c resp).snd = [Call.mochiPost (mochiRequest p e c)] ∧
      (mochiRequest p e c).deckId = "QKtBzxLx" ∧
      (mochiRequest p e c).archived = false ∧
      (∃ rest, (mochiRequest p e c).content =
        "What is the key techinque to solve this problem?\n" ++ rest) ∧
      (∃ pre, (mochiRequest p e c).content =
        pre ++ ("```python\n" ++ (jsToString c ++ "\n```"))) := by
  refine ⟨?_, rfl, rfl, ?_, ?_⟩
  · cases hok : resp.ok <;> simp [createMochiCard, truthy, h, hok]
  · refine ⟨jsToString p ++ ("\n---\n" ++ (jsToString e ++ ("\n" ++ ("```python\n" ++
      (jsToString c ++ "\n```"))))), ?_⟩
    simp only [mochiRequest, cardContent, strAppend_assoc]
  · refine ⟨"What is the key techinque to solve this problem?\n" ++ jsToString p ++ "\n---\n" ++
      jsToString e ++ "\n", ?_⟩
    simp only [mochiRequest, cardContent, strAppend_assoc]

/-- Witness for C9 at concrete strings. -/
theorem C9_request_invariants_witness :
    (createMochiCard (some "mochi-key") (some (Json.str "P")) (some (Json.str "E"))
        (some (Json.str "C")) ⟨true, 200, "ok"⟩).snd =
      [Call.mochiPost (mochiRequest (some (Json.str "P")) (some (Json.str "E"))
        (some (Json.str "C")))] ∧
      (mochiRequest (some (Json.str "P")) (some (Json.str "E"))
        (some (Json.str "C"))).deckId = "QKtBzxLx" :=
  ⟨(C9_request_invariants "mochi-key" (some (Json.str "P")) (some (Json.str "E"))
      (some (Json.str "C")) ⟨true, 200, "ok"⟩ rfl).1,
   (C9_request_invariants "mochi-key" (some (Json.str "P")) (some (Json.str "E"))
      (some (Json.str "C")) ⟨true, 200, "ok"⟩ rfl).2.1⟩

/-- C10: for every valid submission the acknowledgment is the very first
event, the background task starts only afterwards, and everything after that
point consists solely of outbound calls — the response is sent strictly before
either upstream call is even started. -/
theorem C10_ack_before_upstream (m d : String) (env : Env)
    (hm : m.isEmpty = false) (hd : d.isEmpty = false) :
    ∃ tail, postApiData ⟨some m, some d⟩ env =
        Event.respond ackResponse :: Event.startBackground :: tail ∧
      ∀ ev ∈ tail, ∃ cl, ev = Event.outbound cl := by
  refine ⟨(backgroundTask m d env).snd.map Event.outbound, ?_, ?_⟩
  · simp [postApiData, hm, hd]
  · intro ev hev
    obtain ⟨cl, _, hfe⟩ := List.mem_map.mp hev
    exact ⟨cl, hfe.symm⟩

/-- Witness for C10 at a concrete valid submission. -/
theorem C10_ack_before_upstream_witness :
    ∃ tail, postApiData ⟨some "two sum solution", some "Given an array"⟩ minimalEnv =
        Event.respond ackResponse :: Event.startBackground :: tail ∧
      ∀ ev ∈ tail, ∃ cl, ev = Event.outbound cl :=
  C10_ack_before_upstream "two sum solution" "Given an array" minimalEnv rfl rfl

end LCExt
